import Mathlib

/-!
Shallow embedding of the compressed_image_transport plugin
(src/compressed_image_transport/src/compressed_publisher.cpp and
src/compressed_image_transport/src/compressed_subscriber.cpp).

The publisher side (CompressedPublisher::publish) is modelled by
`compressedPublish`; the subscriber side
(CompressedSubscriber::internalCallback) by `internalCallback`.
External collaborators (OpenCV imencode/imdecode, the qoixx byte codec,
cv_bridge conversions) are modelled at the interface granularity the
source uses, either as oracle parameters or as definitions whose doc
comment says what they stand for.
-/

set_option autoImplicit false

deriving instance DecidableEq for Except

namespace CompressedImageTransport

/-- Index of the first occurrence of a character in a character list,
mirroring std::string::find (none plays the role of npos). -/
def strFind (l : List Char) (c : Char) : Option Nat :=
  match l with
  | [] => none
  | x :: xs => if x == c then some 0 else (strFind xs c).map (· + 1)

/-- Tests whether the first list occurs at the front of the second list. -/
def leadsWith : List Char → List Char → Bool
  | [], _ => true
  | _ :: _, [] => false
  | p :: ps, c :: cs => p == c && leadsWith ps cs

/-- Substring containment test, mirroring std::string::find(pattern) != npos. -/
def containsSub (pat : List Char) : List Char → Bool
  | [] => leadsWith pat []
  | c :: cs => leadsWith pat (c :: cs) || containsSub pat cs

/-- Applies a function to each consecutive group of three list elements,
concatenating the images; a trailing group shorter than three is dropped.
Used to model channel reordering of 3-channel pixel buffers. -/
def mapTriples (f : Nat → Nat → Nat → List Nat) : List Nat → List Nat
  | a :: b :: c :: rest => f a b c ++ mapTriples f rest
  | _ => []

/-- Applies a function to each consecutive group of four list elements,
concatenating the images; a trailing group shorter than four is dropped.
Used to model channel reordering of 4-channel pixel buffers. -/
def mapQuads (f : Nat → Nat → Nat → Nat → List Nat) : List Nat → List Nat
  | a :: b :: c :: d :: rest => f a b c d ++ mapQuads f rest
  | _ => []

/-- Modelled from the spec: sensor_msgs::image_encodings::isColor, the
frame-source collaborator interface; true exactly on the eight color
encodings the pipeline distinguishes. -/
def isColor (e : String) : Bool :=
  e == "rgb8" || e == "bgr8" || e == "rgba8" || e == "bgra8" ||
  e == "rgb16" || e == "bgr16" || e == "rgba16" || e == "bgra16"

/-- Modelled from the spec: sensor_msgs::image_encodings::bitDepth on the
closed set of encodings the claims use (the real function throws on
unknown encodings; 0 marks the out-of-domain case). -/
def bitDepth (e : String) : Nat :=
  if e == "mono8" || e == "rgb8" || e == "bgr8" || e == "rgba8" ||
     e == "bgra8" || e == "8UC1" || e == "8UC2" || e == "8UC3" || e == "8UC4" then 8
  else if e == "mono16" || e == "rgb16" || e == "bgr16" || e == "rgba16" ||
          e == "bgra16" || e == "16UC1" || e == "16UC2" then 16
  else if e == "32FC1" || e == "32SC1" then 32
  else 0

/-- Encodings for which `bitDepth` faithfully reproduces the library
function (outside this set the real library throws). -/
def knownEncoding (e : String) : Bool :=
  e == "mono8" || e == "rgb8" || e == "bgr8" || e == "rgba8" || e == "bgra8" ||
  e == "8UC1" || e == "8UC2" || e == "8UC3" || e == "8UC4" ||
  e == "mono16" || e == "rgb16" || e == "bgr16" || e == "rgba16" ||
  e == "bgra16" || e == "16UC1" || e == "16UC2" || e == "32FC1" || e == "32SC1"

/-- A sensor_msgs::Image as the publisher reads it: dimensions, row stride
in bytes, encoding name and the raw byte buffer. -/
structure RosImage where
  width : Nat
  height : Nat
  step : Nat
  encoding : String
  data : List Nat
  deriving DecidableEq

/-- A sensor_msgs::CompressedImage: the format header string and the
payload bytes. -/
structure CompressedMsg where
  format : String
  data : List Nat
  deriving DecidableEq

/-- Error events reported through ROS_ERROR by the publisher. -/
inductive PubErr where
  | jpegEncodeFailed
  | pngEncodeFailed
  | unsupportedBitDepthJpeg
  | unsupportedBitDepthPng
  | unsupportedChannelCount
  | unknownFormat
  | conversionException
  | qoiInvalidArgument
  deriving DecidableEq

/-- Outcome of one publish call: the message handed to publish_fn, if any,
and the error reported, if any (the source can do both at once). -/
structure PubOutcome where
  published : Option CompressedMsg
  error : Option PubErr
  deriving DecidableEq

/-- Result of the external cv::imencode call together with the cv_bridge
conversion that feeds it (JPEG and PNG branches): success with the
produced bytes, a false return value, or a thrown exception. -/
inductive ImencodeResult where
  | ok (bytes : List Nat)
  | fail
  | exn
  deriving DecidableEq

/-- Undefined behavior the QOI branch of the source can reach; the model
refuses to assign a result there. -/
inductive UB where
  | divByZero
  | oobRead
  deriving DecidableEq

inductive CvBridgeErr where
  | unsupportedConversion
  deriving DecidableEq

/-- Modelled from the spec: cv_bridge::toCvShare at the byte level for the
conversions the QOI branch can request. An empty target, or a target equal
to the source encoding, returns the buffer unchanged; a bgr8 target
reorders 8-bit color pixels to BGR, dropping alpha; anything else is a
cv_bridge exception. -/
def toCvShareBytes (src target : String) (data : List Nat) : Except CvBridgeErr (List Nat) :=
  if target == "" || target == src then .ok data
  else if target == "bgr8" then
    if src == "rgb8" then .ok (mapTriples (fun r g b => [b, g, r]) data)
    else if src == "bgra8" then .ok (mapQuads (fun b g r _ => [b, g, r]) data)
    else if src == "rgba8" then .ok (mapQuads (fun r g b _ => [b, g, r]) data)
    else .error .unsupportedConversion
  else .error .unsupportedConversion

/-- QOI stream descriptor: width, height and channel count (qoixx::qoi::desc
without the colorspace tag, which the pipeline never reads). -/
structure QoiDesc where
  width : Nat
  height : Nat
  channels : Nat
  deriving DecidableEq

inductive QoiErr where
  | invalidArg
  | oobRead
  deriving DecidableEq

/-- Modelled from the spec: the qoixx byte codec is an external collaborator
whose compressed stream is never inspected here; QOI is lossless, so the payload is
modelled as the descriptor followed by the raw pixel bytes. The encoder
validates its arguments (throwing std::invalid_argument on a zero
dimension, a channel count outside 3..4 or a size disagreeing with the
descriptor); reading `size` bytes through the raw pointer additionally
requires the buffer to hold them, and a shorter buffer is the
out-of-bounds read the model refuses. -/
def qoiEncode (data : List Nat) (size : Nat) (desc : QoiDesc) : Except QoiErr (List Nat) :=
  if desc.width = 0 ∨ desc.height = 0 ∨ (desc.channels ≠ 3 ∧ desc.channels ≠ 4) ∨
     size ≠ desc.width * desc.height * desc.channels then
    .error .invalidArg
  else if size ≤ data.length then
    .ok (desc.width :: desc.height :: desc.channels :: data.take size)
  else .error .oobRead

/-- Modelled from the spec: inverse of `qoiEncode`; a payload that is not a
well-formed stream raises std::invalid_argument. -/
def qoiDecode (payload : List Nat) : Except QoiErr (QoiDesc × List Nat) :=
  match payload with
  | w :: h :: c :: rest =>
    if w = 0 ∨ h = 0 ∨ (c ≠ 3 ∧ c ≠ 4) ∨ rest.length ≠ w * h * c then .error .invalidArg
    else .ok (⟨w, h, c⟩, rest)
  | _ => .error .invalidArg

/-- Conversion target used by the JPEG branch of the publisher
(compressed_publisher.cpp lines 125-131): color images go to bgr8,
everything else keeps its encoding (empty target). -/
def jpegTargetFormat (e : String) : String :=
  if isColor e then "bgr8" else ""

/-- Conversion target used by the PNG branch (lines 183-190): color images
go to bgr at the source bit depth. -/
def pngTargetFormat (e : String) : String :=
  if isColor e then "bgr" ++ toString (bitDepth e) else ""

/-- Conversion target used by the QOI branch (lines 240-247): same rule as
PNG. -/
def qoiTargetFormat (e : String) : String :=
  if isColor e then "bgr" ++ toString (bitDepth e) else ""

/-- JPEG branch of CompressedPublisher::publish (lines 106-168). The format
header gains "; jpeg compressed " and, for color inputs, the bgr8 target.
With a supported bit depth the message is handed to publish_fn in every
case: after a successful encode with the encoded bytes, and after a failed
encode or a caught exception with the data field still empty (the catch
blocks do not return). An unsupported bit depth only reports an error. -/
def jpegBranch (msg : RosImage) (encRes : ImencodeResult) : PubOutcome :=
  let fmt := if isColor msg.encoding
    then msg.encoding ++ "; jpeg compressed " ++ "bgr8"
    else msg.encoding ++ "; jpeg compressed "
  if bitDepth msg.encoding = 8 ∨ bitDepth msg.encoding = 16 then
    match encRes with
    | .ok bytes => { published := some { format := fmt, data := bytes }, error := none }
    | .fail => { published := some { format := fmt, data := [] }, error := some .jpegEncodeFailed }
    | .exn => { published := some { format := fmt, data := [] }, error := some .conversionException }
  else { published := none, error := some .unsupportedBitDepthJpeg }

/-- PNG branch of CompressedPublisher::publish (lines 170-228). Like the
JPEG branch, but the catch blocks return, so only the failed-encode path
(imencode returning false) still publishes an empty-data message. -/
def pngBranch (msg : RosImage) (encRes : ImencodeResult) : PubOutcome :=
  let fmt := if isColor msg.encoding
    then msg.encoding ++ "; png compressed " ++ ("bgr" ++ toString (bitDepth msg.encoding))
    else msg.encoding ++ "; png compressed "
  if bitDepth msg.encoding = 8 ∨ bitDepth msg.encoding = 16 then
    match encRes with
    | .ok bytes => { published := some { format := fmt, data := bytes }, error := none }
    | .fail => { published := some { format := fmt, data := [] }, error := some .pngEncodeFailed }
    | .exn => { published := none, error := some .conversionException }
  else { published := none, error := some .unsupportedBitDepthPng }

/-- QOI branch of CompressedPublisher::publish (lines 230-290). The channel
count is message.step / message.width (integer division; width 0 is a
division by zero in the source). With 3 or 4 channels the image is
converted through cv_bridge to the target of `qoiTargetFormat` and
qoixx::qoi::encode is called with size width*height*channels on the
converted buffer; exceptions return without publishing. -/
def qoiBranch (msg : RosImage) : Except UB PubOutcome :=
  let fmt := if isColor msg.encoding
    then msg.encoding ++ "; qoi compressed " ++ ("bgr" ++ toString (bitDepth msg.encoding))
    else msg.encoding ++ "; qoi compressed "
  if msg.width = 0 then .error .divByZero
  else
    let channels := msg.step / msg.width
    if channels = 3 ∨ channels = 4 then
      match toCvShareBytes msg.encoding (qoiTargetFormat msg.encoding) msg.data with
      | .error _ => .ok { published := none, error := some .conversionException }
      | .ok matData =>
        let size := msg.width * msg.height * channels
        match qoiEncode matData size ⟨msg.width, msg.height, channels⟩ with
        | .error .invalidArg => .ok { published := none, error := some .qoiInvalidArgument }
        | .error .oobRead => .error .oobRead
        | .ok payload => .ok { published := some { format := fmt, data := payload }, error := none }
    else .ok { published := none, error := some .unsupportedChannelCount }

/-- CompressedPublisher::publish (lines 80-300): dispatch on the configured
format string; anything other than jpeg, png or qoi reports an unknown
compression type and publishes nothing. The `encRes` oracle stands for the
external cv_bridge conversion plus cv::imencode call of the JPEG and PNG
branches. -/
def compressedPublish (msg : RosImage) (configFormat : String) (encRes : ImencodeResult) :
    Except UB PubOutcome :=
  if configFormat == "jpeg" then .ok (jpegBranch msg encRes)
  else if configFormat == "png" then .ok (pngBranch msg encRes)
  else if configFormat == "qoi" then qoiBranch msg
  else .ok { published := none, error := some .unknownFormat }

/-- A cv::Mat as the subscriber handles it: rows, columns, channel count,
bit depth of one channel sample, and the flat list of channel samples. -/
structure MatModel where
  rows : Nat
  cols : Nat
  channels : Nat
  depthBits : Nat
  data : List Nat
  deriving DecidableEq

/-- Largest representable channel value at a bit depth; cv::cvtColor fills
a newly added alpha channel with it. -/
def maxVal (depthBits : Nat) : Nat := 2 ^ depthBits - 1

/-- Color conversion codes the subscriber uses (lines 153-208). -/
inductive CvtCode where
  | RGB2BGR
  | RGB2RGBA
  | RGB2BGRA
  | BGR2RGB
  | BGR2RGBA
  | BGR2BGRA
  | RGBA2BGRA
  deriving DecidableEq

inductive CvErr where
  | badNumChannels
  deriving DecidableEq

/-- Modelled from the spec: cv::cvtColor channel reordering. A 3-channel
code requires a 3-channel input and a 4-channel code a 4-channel input
(otherwise OpenCV throws cv::Exception); codes targeting four channels
append an alpha sample equal to the depth maximum. -/
def cvtColor (code : CvtCode) (m : MatModel) : Except CvErr MatModel :=
  match code with
  | .RGB2BGR =>
    if m.channels = 3 then
      .ok { m with data := mapTriples (fun r g b => [b, g, r]) m.data }
    else .error .badNumChannels
  | .BGR2RGB =>
    if m.channels = 3 then
      .ok { m with data := mapTriples (fun b g r => [r, g, b]) m.data }
    else .error .badNumChannels
  | .RGB2RGBA =>
    if m.channels = 3 then
      .ok { m with channels := 4
                   data := mapTriples (fun r g b => [r, g, b, maxVal m.depthBits]) m.data }
    else .error .badNumChannels
  | .RGB2BGRA =>
    if m.channels = 3 then
      .ok { m with channels := 4
                   data := mapTriples (fun r g b => [b, g, r, maxVal m.depthBits]) m.data }
    else .error .badNumChannels
  | .BGR2RGBA =>
    if m.channels = 3 then
      .ok { m with channels := 4
                   data := mapTriples (fun b g r => [r, g, b, maxVal m.depthBits]) m.data }
    else .error .badNumChannels
  | .BGR2BGRA =>
    if m.channels = 3 then
      .ok { m with channels := 4
                   data := mapTriples (fun b g r => [b, g, r, maxVal m.depthBits]) m.data }
    else .error .badNumChannels
  | .RGBA2BGRA =>
    if m.channels = 4 then
      .ok { m with data := mapQuads (fun r g b a => [b, g, r, a]) m.data }
    else .error .badNumChannels

/-- In-place cvtColor call inside the try block: a cv::Exception is caught
further down, the destination mat is left unchanged, and the flag records
that an error was logged. -/
def applyCvt (code : CvtCode) (m : MatModel) : MatModel × Bool :=
  match cvtColor code m with
  | .ok m2 => (m2, false)
  | .error _ => (m, true)

/-- The frame handed to the user callback: the encoding string of the
cv_bridge image and its mat. -/
structure DeliveredImage where
  encoding : String
  mat : MatModel
  deriving DecidableEq

/-- Exceptions the callback does not catch (std::out_of_range from substr);
they escape internalCallback entirely. -/
inductive SubFatal where
  | substrOutOfRange
  deriving DecidableEq

/-- Outcome of one subscriber callback: the frame delivered to the user
callback, if any, and whether an error was logged on the way. -/
structure SubOutcome where
  delivered : Option DeliveredImage
  errorLogged : Bool
  deriving DecidableEq

/-- Lines 223-228 of compressed_subscriber.cpp: the frame is handed to the
user callback only when the final image has positive rows and columns. -/
def finalize (encoding : String) (m : MatModel) (err : Bool) : SubOutcome :=
  { delivered := if 0 < m.rows ∧ 0 < m.cols then some { encoding := encoding, mat := m } else none
    errorLogged := err }

/-- Body of the try block of CompressedSubscriber::internalCallback
(lines 136-221), producing the cv_bridge image state (encoding, mat,
error-logged flag) that `finalize` then inspects. The header is split at
the first semicolon; when no semicolon exists, split_pos is npos and
split_pos+2 wraps around to 1, so the compression format token is read
from index 1 of the header (and an empty header makes substr throw the
uncaught std::out_of_range). The `decodedMat` oracle stands for the
external cv::imdecode call of the non-QOI path. -/
def callbackCore (format : String) (payload : List Nat) (decodedMat : MatModel) :
    Except SubFatal (String × MatModel × Bool) :=
  let f := format.toList
  let splitPos := strFind f ';'
  let imageEncoding : String := String.mk (match splitPos with
    | some p => f.take p
    | none => f)
  let cfPos := match splitPos with
    | some p => p + 2
    | none => 1
  if cfPos ≤ f.length then
    let compressionFormat := String.mk ((f.drop cfPos).take 3)
    if compressionFormat == "qoi" then
      match qoiDecode payload with
      | .error _ =>
        .ok ("", { rows := 0, cols := 0, channels := 0, depthBits := 0, data := [] }, true)
      | .ok (desc, pixels) =>
        let encoding := if desc.channels = 4 then "rgba8" else "rgb8"
        let mat : MatModel :=
          { rows := desc.height, cols := desc.width, channels := desc.channels
            depthBits := 8, data := pixels }
        let step1 :=
          if desc.channels = 3 then applyCvt .RGB2BGR mat
          else if desc.channels = 4 then applyCvt .RGBA2BGRA mat
          else (mat, false)
        .ok (encoding, step1.1, step1.2)
    else
      let mat := decodedMat
      match splitPos with
      | none =>
        match mat.channels with
        | 1 => .ok ("mono8", mat, false)
        | 3 => .ok ("bgr8", mat, false)
        | _ => .ok ("", mat, true)
      | some p =>
        let encoding := imageEncoding
        if isColor encoding then
          let compressedEncoding := f.drop p
          if containsSub "compressed bgr".toList compressedEncoding then
            let step1 :=
              if encoding == "rgb8" || encoding == "rgb16" then applyCvt .BGR2RGB mat
              else if encoding == "rgba8" || encoding == "rgba16" then applyCvt .BGR2RGBA mat
              else if encoding == "bgra8" || encoding == "bgra16" then applyCvt .BGR2BGRA mat
              else (mat, false)
            .ok (encoding, step1.1, step1.2)
          else
            let step1 :=
              if encoding == "bgr8" || encoding == "bgr16" then applyCvt .RGB2BGR mat
              else if encoding == "bgra8" || encoding == "bgra16" then applyCvt .RGB2BGRA mat
              else if encoding == "rgba8" || encoding == "rgba16" then applyCvt .RGB2RGBA mat
              else (mat, false)
            .ok (encoding, step1.1, step1.2)
        else .ok (encoding, mat, false)
  else .error .substrOutOfRange

/-- CompressedSubscriber::internalCallback (lines 125-229): run the try
block, then deliver the resulting frame when it is nonempty. -/
def internalCallback (format : String) (payload : List Nat) (decodedMat : MatModel) :
    Except SubFatal SubOutcome :=
  match callbackCore format payload decodedMat with
  | .error e => .error e
  | .ok (enc, m, err) => .ok (finalize enc m err)

/-! Helper lemmas about the model. -/

theorem mapTriples_length (f : Nat → Nat → Nat → List Nat) (k : Nat)
    (hf : ∀ a b c, (f a b c).length = k) :
    ∀ l : List Nat, (mapTriples f l).length = k * (l.length / 3)
  | [] => by simp [mapTriples]
  | [a] => by simp [mapTriples]
  | [a, b] => by simp [mapTriples]
  | a :: b :: c :: rest => by
    have ih := mapTriples_length f k hf rest
    have hdiv : (rest.length + 3) / 3 = rest.length / 3 + 1 :=
      Nat.add_div_right _ (by norm_num)
    simp only [mapTriples, List.length_append, List.length_cons, hf, ih]
    rw [show rest.length + 1 + 1 + 1 = rest.length + 3 by omega, hdiv]
    ring

theorem mapQuads_length (f : Nat → Nat → Nat → Nat → List Nat) (k : Nat)
    (hf : ∀ a b c d, (f a b c d).length = k) :
    ∀ l : List Nat, (mapQuads f l).length = k * (l.length / 4)
  | [] => by simp [mapQuads]
  | [a] => by simp [mapQuads]
  | [a, b] => by simp [mapQuads]
  | [a, b, c] => by simp [mapQuads]
  | a :: b :: c :: d :: rest => by
    have ih := mapQuads_length f k hf rest
    have hdiv : (rest.length + 4) / 4 = rest.length / 4 + 1 :=
      Nat.add_div_right _ (by norm_num)
    simp only [mapQuads, List.length_append, List.length_cons, hf, ih]
    rw [show rest.length + 1 + 1 + 1 + 1 = rest.length + 4 by omega, hdiv]
    ring

theorem cvtColor_dims (code : CvtCode) (m m2 : MatModel)
    (h : cvtColor code m = .ok m2) : m2.rows = m.rows ∧ m2.cols = m.cols := by
  cases code <;> simp only [cvtColor] at h <;> split at h <;>
    first
      | exact Except.noConfusion h
      | (injection h with h2; subst h2; exact ⟨rfl, rfl⟩)

theorem applyCvt_rows (code : CvtCode) (m : MatModel) : (applyCvt code m).1.rows = m.rows := by
  unfold applyCvt
  cases h : cvtColor code m with
  | ok m2 => exact (cvtColor_dims code m m2 h).1
  | error e => rfl

theorem applyCvt_cols (code : CvtCode) (m : MatModel) : (applyCvt code m).1.cols = m.cols := by
  unfold applyCvt
  cases h : cvtColor code m with
  | ok m2 => exact (cvtColor_dims code m m2 h).2
  | error e => rfl

theorem finalize_pos (e : String) (m : MatModel) (err : Bool)
    (hr : 0 < m.rows) (hc : 0 < m.cols) :
    finalize e m err = { delivered := some { encoding := e, mat := m }, errorLogged := err } := by
  simp [finalize, hr, hc]

/-! Concrete inputs used by the claim theorems. -/

def imgBgra4x4 : RosImage :=
  { width := 4, height := 4, step := 16, encoding := "bgra8", data := List.range 64 }

def imgRgba2x2 : RosImage :=
  { width := 2, height := 2, step := 8, encoding := "rgba8", data := List.range 16 }

def imgMono8 : RosImage :=
  { width := 2, height := 2, step := 2, encoding := "mono8", data := [0, 0, 0, 0] }

def imgMono16 : RosImage :=
  { width := 2, height := 2, step := 4, encoding := "mono16", data := [0, 0, 0, 0, 0, 0, 0, 0] }

def imgRgb16 : RosImage :=
  { width := 1, height := 1, step := 6, encoding := "rgb16", data := [1, 2, 3, 4, 5, 6] }

def img32F : RosImage :=
  { width := 1, height := 1, step := 4, encoding := "32FC1", data := [0, 0, 0, 0] }

def emptyMat : MatModel :=
  { rows := 0, cols := 0, channels := 0, depthBits := 0, data := [] }

def mat2x2x1 : MatModel :=
  { rows := 2, cols := 2, channels := 1, depthBits := 8, data := [0, 0, 0, 0] }

def mat1x1x3 : MatModel :=
  { rows := 1, cols := 1, channels := 3, depthBits := 8, data := [5, 6, 7] }

def imgRgb8 : RosImage :=
  { width := 1, height := 1, step := 3, encoding := "rgb8", data := [1, 2, 3] }

/-- C1: the claimed lossless bgra8/QOI round-trip does not exist in the
code. Encoding a 4x4 bgra8 image with QOI converts the pixels to
3-channel bgr8 (dropping alpha) while declaring 4 channels and size
width*height*4 to the QOI encoder, so the encode reads past the converted
buffer (the model refuses with oobRead); and on decode the subscriber
labels every 4-channel QOI stream rgba8, never restoring the original
bgra8 encoding from the header. -/
theorem claim_C1_qoi_bgra8_roundtrip_bug :
    compressedPublish imgBgra4x4 "qoi" .fail = .error .oobRead ∧
    internalCallback "bgra8; qoi compressed bgr8" [1, 1, 4, 1, 2, 3, 4] emptyMat =
      .ok { delivered := some { encoding := "rgba8"
                                mat := { rows := 1, cols := 1, channels := 4, depthBits := 8
                                         data := [3, 2, 1, 4] } }
            errorLogged := false } ∧
    ("rgba8" : String) ≠ "bgra8" := by
  refine ⟨by decide, by decide, by decide⟩

/-- C6: contrary to the claim, a failed encode does not abort the message.
With JPEG selected, publish_fn is still invoked after cv::imencode returns
false and after a caught conversion exception (the JPEG catch blocks do
not return), and with PNG selected publish_fn is still invoked after
cv::imencode returns false; in each case the published message carries an
empty data payload while the failure is reported. -/
theorem claim_C6_failed_encode_still_publishes :
    compressedPublish imgMono8 "jpeg" .fail =
      .ok { published := some { format := "mono8; jpeg compressed ", data := [] }
            error := some .jpegEncodeFailed } ∧
    compressedPublish imgMono8 "jpeg" .exn =
      .ok { published := some { format := "mono8; jpeg compressed ", data := [] }
            error := some .conversionException } ∧
    compressedPublish imgMono8 "png" .fail =
      .ok { published := some { format := "mono8; png compressed ", data := [] }
            error := some .pngEncodeFailed } := by
  refine ⟨by decide, by decide, by decide⟩

/-- C2 counterexample: a 16-bit color input is forced to the 8-bit target
bgr8 before JPEG encode; the published header records the bgr8 target. -/
theorem claim_C2_counterexample :
    bitDepth "rgb16" = 16 ∧ jpegTargetFormat "rgb16" = "bgr8" ∧ bitDepth "bgr8" = 8 ∧
    compressedPublish imgRgb16 "jpeg" (.ok [9]) =
      .ok { published := some { format := "rgb16; jpeg compressed bgr8", data := [9] }
            error := none } := by
  refine ⟨by decide, by decide, by decide, by decide⟩

/-- C3 counterexample: the header "mono16;x" contains no "; " separator,
yet the decoder does not fall back to channel-count inference: the
semicolon alone makes it non-legacy, and a 1-channel decode is delivered
with encoding mono16 instead of the claimed mono8. -/
theorem claim_C3_counterexample :
    containsSub "; ".toList "mono16;x".toList = false ∧
    internalCallback "mono16;x" [] mat2x2x1 =
      .ok { delivered := some { encoding := "mono16", mat := mat2x2x1 }
            errorLogged := false } ∧
    ("mono16" : String) ≠ "mono8" := by
  refine ⟨by decide, by decide, by decide⟩

/-- C4 counterexample: a header with the "; " separator and the unknown
codec token "zzz" is not rejected with any UnknownCodec error; the payload
is decoded by the generic image decoder and the frame is delivered with
the encoding taken from before the separator, with no error logged. -/
theorem claim_C4_counterexample :
    String.mk (("bgr8; zzz compressed".toList.drop 6).take 3) = "zzz" ∧
    internalCallback "bgr8; zzz compressed" [] mat1x1x3 =
      .ok { delivered := some { encoding := "bgr8"
                                mat := { rows := 1, cols := 1, channels := 3, depthBits := 8
                                         data := [7, 6, 5] } }
            errorLogged := false } := by
  refine ⟨by decide, by decide⟩

/-- C5 counterexample: for a mono16 input encoded with PNG the serialized
header is "mono16; png compressed " with a trailing space after the codec
tag, not the claimed exact "mono16; png compressed". -/
theorem claim_C5_counterexample :
    compressedPublish imgMono16 "png" (.ok [1]) =
      .ok { published := some { format := "mono16; png compressed ", data := [1] }
            error := none } ∧
    ("mono16; png compressed " : String) ≠ "mono16; png compressed" := by
  refine ⟨by decide, by decide⟩

/-- C7 counterexample: a 4-channel 8-bit color image (rgba8, channel count
step/width = 4) does not encode successfully with QOI: the image is
converted to 3-channel bgr8 while the QOI descriptor still declares 4
channels and size width*height*4, so the encode reads past the converted
buffer. -/
theorem claim_C7_counterexample :
    imgRgba2x2.step / imgRgba2x2.width = 4 ∧ bitDepth "rgba8" = 8 ∧
    compressedPublish imgRgba2x2 "qoi" .fail = .error .oobRead := by
  refine ⟨by decide, by decide, by decide⟩

/-- C10 counterexample: a non-legacy qoi-tagged payload whose descriptor
lacks "compressed bgr" and whose original encoding rgba8 is color is not
converted RGB-to-RGBA as claimed: the qoi branch intercepts it, converts
the decoded RGBA pixels to BGRA order, and delivers [30, 20, 10, 40]
instead of the claimed [10, 20, 30, 40]. -/
theorem claim_C10_counterexample :
    containsSub "compressed bgr".toList "rgba8; qoi compressed ".toList = false ∧
    isColor "rgba8" = true ∧
    internalCallback "rgba8; qoi compressed " [1, 1, 4, 10, 20, 30, 40] emptyMat =
      .ok { delivered := some { encoding := "rgba8"
                                mat := { rows := 1, cols := 1, channels := 4, depthBits := 8
                                         data := [30, 20, 10, 40] } }
            errorLogged := false } ∧
    ([30, 20, 10, 40] : List Nat) ≠ [10, 20, 30, 40] := by
  refine ⟨by decide, by decide, by decide, by decide⟩

/-- C8: with JPEG or PNG selected, an input whose bit depth is neither 8
nor 16 makes the publisher report the unsupported-bit-depth error and
publish nothing, whatever the external encoder would have returned. -/
theorem claim_C8_unsupported_bit_depth (msg : RosImage) (o : ImencodeResult) (cfg : String)
    (hc : cfg = "jpeg" ∨ cfg = "png")
    (hd8 : bitDepth msg.encoding ≠ 8) (hd16 : bitDepth msg.encoding ≠ 16) :
    (cfg = "jpeg" →
      compressedPublish msg cfg o =
        .ok { published := none, error := some .unsupportedBitDepthJpeg }) ∧
    (cfg = "png" →
      compressedPublish msg cfg o =
        .ok { published := none, error := some .unsupportedBitDepthPng }) := by
  constructor
  · intro h
    subst h
    show Except.ok (jpegBranch msg o) = _
    unfold jpegBranch
    rw [if_neg (by rintro (h | h) <;> [exact hd8 h; exact hd16 h])]
  · intro h
    subst h
    show Except.ok (pngBranch msg o) = _
    unfold pngBranch
    rw [if_neg (by rintro (h | h) <;> [exact hd8 h; exact hd16 h])]

/-- C8 witness: a 32-bit float image with JPEG selected is rejected with
the unsupported-bit-depth error and nothing is published. -/
theorem claim_C8_unsupported_bit_depth_witness :
    bitDepth "32FC1" = 32 ∧
    compressedPublish img32F "jpeg" (.ok [1]) =
      .ok { published := none, error := some .unsupportedBitDepthJpeg } :=
  ⟨by decide,
    (claim_C8_unsupported_bit_depth img32F (.ok [1]) "jpeg" (Or.inl rfl)
      (by decide) (by decide)).1 rfl⟩

/-- C9: whenever the subscriber delivers a frame to the user callback, the
final image has positive rows and columns; equivalently, a decode that
produces zero rows or zero columns is never delivered downstream. -/
theorem claim_C9_empty_frame_not_delivered (format : String) (payload : List Nat)
    (decodedMat : MatModel) (out : SubOutcome) (img : DeliveredImage)
    (h : internalCallback format payload decodedMat = .ok out)
    (h2 : out.delivered = some img) :
    0 < img.mat.rows ∧ 0 < img.mat.cols := by
  unfold internalCallback at h
  cases hc : callbackCore format payload decodedMat with
  | error e => rw [hc] at h; exact Except.noConfusion h
  | ok t =>
    rw [hc] at h
    obtain ⟨enc, m, err⟩ := t
    injection h with h3
    rw [← h3] at h2
    unfold finalize at h2
    by_cases hr : 0 < m.rows ∧ 0 < m.cols
    · rw [if_pos hr] at h2
      injection h2 with h4
      rw [← h4]
      exact hr
    · rw [if_neg hr] at h2
      exact Option.noConfusion h2

/-- C9 witness: a delivered frame on a concrete nonempty decode, with its
positive dimensions obtained through the claim theorem. -/
theorem claim_C9_empty_frame_not_delivered_witness :
    internalCallback "mono8;x" [] mat2x2x1 =
      .ok { delivered := some { encoding := "mono8", mat := mat2x2x1 }
            errorLogged := false } ∧
    0 < ({ encoding := "mono8", mat := mat2x2x1 } : DeliveredImage).mat.rows ∧
    0 < ({ encoding := "mono8", mat := mat2x2x1 } : DeliveredImage).mat.cols :=
  ⟨by decide,
    claim_C9_empty_frame_not_delivered "mono8;x" [] mat2x2x1
      { delivered := some { encoding := "mono8", mat := mat2x2x1 }, errorLogged := false }
      { encoding := "mono8", mat := mat2x2x1 } (by decide) rfl⟩

/-- C2 amended: the JPEG color normalization always targets bgr8; the
channel order becomes BGR and the bit depth is forced to 8 regardless of
the source depth, and the published header records the bgr8 target. -/
theorem claim_C2_amended_jpeg_forces_bgr8 (msg : RosImage) (o : ImencodeResult)
    (hcol : isColor msg.encoding = true)
    (hd : bitDepth msg.encoding = 8 ∨ bitDepth msg.encoding = 16) :
    jpegTargetFormat msg.encoding = "bgr8" ∧
    ∃ out m, compressedPublish msg "jpeg" o = .ok out ∧ out.published = some m ∧
      m.format = msg.encoding ++ "; jpeg compressed " ++ "bgr8" := by
  refine ⟨by unfold jpegTargetFormat; rw [if_pos hcol], ?_⟩
  have key : ∃ m, (jpegBranch msg o).published = some m ∧
      m.format = msg.encoding ++ "; jpeg compressed " ++ "bgr8" := by
    unfold jpegBranch
    rw [if_pos hcol, if_pos hd]
    cases o <;> exact ⟨_, rfl, rfl⟩
  obtain ⟨m, hm1, hm2⟩ := key
  exact ⟨jpegBranch msg o, m, rfl, hm1, hm2⟩

/-- C2 amended witness: the 16-bit color input rgb16 is encoded through
the 8-bit target bgr8 and the header records it. -/
theorem claim_C2_amended_jpeg_forces_bgr8_witness :
    isColor "rgb16" = true ∧ bitDepth "rgb16" = 16 ∧
    (jpegTargetFormat "rgb16" = "bgr8" ∧
      ∃ out m, compressedPublish imgRgb16 "jpeg" (.ok [9]) = .ok out ∧
        out.published = some m ∧
        m.format = "rgb16" ++ "; jpeg compressed " ++ "bgr8") :=
  ⟨by decide, by decide,
    claim_C2_amended_jpeg_forces_bgr8 imgRgb16 (.ok [9]) (by decide) (Or.inr (by decide))⟩

/-- C5 amended: every published header is
"<original_encoding>; <codec_tag> " with a trailing space always present
after the codec tag; the target encoding follows that space exactly when
the input is color (the case in which a conversion occurs), and for a mono
input nothing follows it except the space itself. -/
theorem claim_C5_amended_header_shape (msg : RosImage) (cfg : String) (o : ImencodeResult)
    (out : PubOutcome) (m : CompressedMsg)
    (h : compressedPublish msg cfg o = .ok out)
    (h2 : out.published = some m) :
    (cfg = "jpeg" → isColor msg.encoding = false →
      m.format = msg.encoding ++ "; jpeg compressed ") ∧
    (cfg = "jpeg" → isColor msg.encoding = true →
      m.format = msg.encoding ++ "; jpeg compressed " ++ "bgr8") ∧
    (cfg = "png" → isColor msg.encoding = false →
      m.format = msg.encoding ++ "; png compressed ") ∧
    (cfg = "png" → isColor msg.encoding = true →
      m.format = msg.encoding ++ "; png compressed " ++ ("bgr" ++ toString (bitDepth msg.encoding))) ∧
    (cfg = "qoi" → isColor msg.encoding = false →
      m.format = msg.encoding ++ "; qoi compressed ") ∧
    (cfg = "qoi" → isColor msg.encoding = true →
      m.format = msg.encoding ++ "; qoi compressed " ++ ("bgr" ++ toString (bitDepth msg.encoding))) := by
  refine ⟨?_, ?_, ?_, ?_, ?_, ?_⟩ <;> intro hcfg hcol <;> subst hcfg
  case _ =>
    have h3 : jpegBranch msg o = out := Except.ok.inj h
    rw [← h3] at h2
    unfold jpegBranch at h2
    simp only [] at h2
    rw [hcol] at h2
    rw [if_neg (show ¬(false = true) by simp)] at h2
    split at h2
    · cases o <;> (injection h2 with h4; rw [← h4])
    · exact Option.noConfusion h2
  case _ =>
    have h3 : jpegBranch msg o = out := Except.ok.inj h
    rw [← h3] at h2
    unfold jpegBranch at h2
    simp only [] at h2
    rw [if_pos hcol] at h2
    split at h2
    · cases o <;> (injection h2 with h4; rw [← h4])
    · exact Option.noConfusion h2
  case _ =>
    have h3 : pngBranch msg o = out := Except.ok.inj h
    rw [← h3] at h2
    unfold pngBranch at h2
    simp only [] at h2
    rw [hcol] at h2
    rw [if_neg (show ¬(false = true) by simp)] at h2
    split at h2
    · cases o with
      | ok bytes => injection h2 with h4; rw [← h4]
      | fail => injection h2 with h4; rw [← h4]
      | exn => exact Option.noConfusion h2
    · exact Option.noConfusion h2
  case _ =>
    have h3 : pngBranch msg o = out := Except.ok.inj h
    rw [← h3] at h2
    unfold pngBranch at h2
    simp only [] at h2
    rw [if_pos hcol] at h2
    split at h2
    · cases o with
      | ok bytes => injection h2 with h4; rw [← h4]
      | fail => injection h2 with h4; rw [← h4]
      | exn => exact Option.noConfusion h2
    · exact Option.noConfusion h2
  case _ =>
    have h3 : qoiBranch msg = Except.ok out := h
    unfold qoiBranch at h3
    simp only [] at h3
    rw [hcol] at h3
    rw [if_neg (show ¬(false = true) by simp)] at h3
    repeat' split at h3
    all_goals
      first
        | exact Except.noConfusion h3
        | (injection h3 with h4; rw [← h4] at h2
           first
             | exact Option.noConfusion h2
             | (injection h2 with h5; rw [← h5]))
  case _ =>
    have h3 : qoiBranch msg = Except.ok out := h
    unfold qoiBranch at h3
    simp only [] at h3
    rw [if_pos hcol] at h3
    repeat' split at h3
    all_goals
      first
        | exact Except.noConfusion h3
        | (injection h3 with h4; rw [← h4] at h2
           first
             | exact Option.noConfusion h2
             | (injection h2 with h5; rw [← h5]))

/-- C5 amended witness: a mono16 input with PNG publishes the header
"mono16; png compressed " with its trailing space. -/
theorem claim_C5_amended_header_shape_witness :
    compressedPublish imgMono16 "png" (.ok [1]) =
      .ok { published := some { format := "mono16; png compressed ", data := [1] }
            error := none } ∧
    ({ format := "mono16; png compressed ", data := [1] } : CompressedMsg).format =
      "mono16" ++ "; png compressed " :=
  ⟨by decide,
    (claim_C5_amended_header_shape imgMono16 "png" (.ok [1])
      { published := some { format := "mono16; png compressed ", data := [1] }, error := none }
      { format := "mono16; png compressed ", data := [1] }
      (by decide) rfl).2.2.1 rfl (by decide)⟩

/-- C3 amended: legacy fallback requires the header to contain no
semicolon at all (the source tests find of the single character, not of
the two-character separator), the header to be nonempty, and the three
characters from index 1 (the wrapped-around npos+2 read) not to spell
qoi; then the delivered encoding is inferred solely from the decoded
channel count: 1 gives mono8, 3 gives bgr8, anything else leaves the
encoding empty and logs an error. -/
theorem claim_C3_amended_legacy_inference (format : String) (payload : List Nat) (mat : MatModel)
    (h1 : strFind format.toList ';' = none)
    (h2 : 1 ≤ format.toList.length)
    (h3 : String.mk ((format.toList.drop 1).take 3) ≠ "qoi")
    (h4 : 0 < mat.rows) (h5 : 0 < mat.cols) :
    internalCallback format payload mat =
      .ok { delivered := some { encoding := match mat.channels with
                                  | 1 => "mono8"
                                  | 3 => "bgr8"
                                  | _ => ""
                                mat := mat }
            errorLogged := match mat.channels with
                           | 1 => false
                           | 3 => false
                           | _ => true } := by
  have hcore : callbackCore format payload mat = .ok
      (match mat.channels with
       | 1 => ("mono8", mat, false)
       | 3 => ("bgr8", mat, false)
       | _ => ("", mat, true)) := by
    unfold callbackCore
    simp only [h1]
    rw [if_pos h2]
    have hq : (String.mk ((format.toList.drop 1).take 3) == "qoi") = false :=
      beq_eq_false_iff_ne.mpr h3
    simp only [hq]
    simp only [Bool.false_eq_true, if_false]
    rcases mat with ⟨rows, cols, channels, depth, data⟩
    rcases channels with _ | _ | _ | _ | n <;> rfl
  unfold internalCallback
  rw [hcore]
  rcases mat with ⟨rows, cols, channels, depth, data⟩
  rcases channels with _ | _ | _ | _ | n <;>
    (simp only []; rw [finalize_pos _ _ _ h4 h5])

/-- C3 amended witness: the semicolon-free header "foo" with a 1-channel
decode delivers a mono8-labelled frame. -/
theorem claim_C3_amended_legacy_inference_witness :
    strFind "foo".toList ';' = none ∧
    internalCallback "foo" [] mat2x2x1 =
      .ok { delivered := some { encoding := "mono8", mat := mat2x2x1 }
            errorLogged := false } :=
  ⟨by decide,
    claim_C3_amended_legacy_inference "foo" [] mat2x2x1
      (by decide) (by decide) (by decide) (by decide) (by decide)⟩

/-- C4 amended: a header containing the separator whose three characters
after it do not spell qoi is never rejected as an unknown codec: the
payload goes to the generic image decoder, and whenever that decoder
yields a nonempty image the frame is delivered with the encoding taken
from before the separator (color conversions may additionally run, and a
failed conversion is caught without suppressing delivery); no
UnknownCodec error path exists. -/
theorem claim_C4_amended_no_unknown_codec_error (format : String) (payload : List Nat)
    (mat : MatModel) (p : Nat)
    (h1 : strFind format.toList ';' = some p)
    (h2 : p + 2 ≤ format.toList.length)
    (h3 : String.mk ((format.toList.drop (p + 2)).take 3) ≠ "qoi")
    (h4 : 0 < mat.rows) (h5 : 0 < mat.cols) :
    ∃ out : SubOutcome, internalCallback format payload mat = .ok out ∧
      ∃ img : DeliveredImage, out.delivered = some img ∧
        img.encoding = String.mk (format.toList.take p) := by
  have hcore : ∃ m2 err, callbackCore format payload mat =
      .ok (String.mk (format.toList.take p), m2, err) ∧
      m2.rows = mat.rows ∧ m2.cols = mat.cols := by
    unfold callbackCore
    simp only [h1]
    rw [if_pos h2]
    have hq : (String.mk ((format.toList.drop (p + 2)).take 3) == "qoi") = false :=
      beq_eq_false_iff_ne.mpr h3
    simp only [hq, Bool.false_eq_true, if_false]
    by_cases hcol : isColor (String.mk (format.toList.take p)) = true
    · rw [if_pos hcol]
      by_cases hbgr :
          containsSub "compressed bgr".toList (format.toList.drop p) = true
      · rw [if_pos hbgr]
        refine ⟨_, _, rfl, ?_, ?_⟩
        · repeat' split
          all_goals first | exact applyCvt_rows _ _ | rfl
        · repeat' split
          all_goals first | exact applyCvt_cols _ _ | rfl
      · rw [if_neg hbgr]
        refine ⟨_, _, rfl, ?_, ?_⟩
        · repeat' split
          all_goals first | exact applyCvt_rows _ _ | rfl
        · repeat' split
          all_goals first | exact applyCvt_cols _ _ | rfl
    · rw [if_neg hcol]
      exact ⟨mat, false, rfl, rfl, rfl⟩
  obtain ⟨m2, err, hc, hr, hcc⟩ := hcore
  unfold internalCallback
  rw [hc]
  refine ⟨_, rfl, ?_⟩
  rw [finalize_pos _ _ _ (by rw [hr]; exact h4) (by rw [hcc]; exact h5)]
  exact ⟨_, rfl, rfl⟩

/-- C4 amended witness: the unknown token zzz is decoded generically and
delivered with the pre-separator encoding bgr8. -/
theorem claim_C4_amended_no_unknown_codec_error_witness :
    String.mk (("bgr8; zzz compressed".toList.drop 6).take 3) ≠ "qoi" ∧
    (∃ out : SubOutcome,
      internalCallback "bgr8; zzz compressed" [] mat1x1x3 = .ok out ∧
      ∃ img : DeliveredImage, out.delivered = some img ∧
        img.encoding = String.mk ("bgr8; zzz compressed".toList.take 4)) :=
  ⟨by decide,
    claim_C4_amended_no_unknown_codec_error "bgr8; zzz compressed" [] mat1x1x3 4
      (by decide) (by decide) (by decide) (by decide) (by decide)⟩

/-- C10 amended: the RGB-assumed reverse conversion of the generic decode
path applies only to payloads whose codec token is not qoi (qoi-tagged
payloads are intercepted earlier and handled by the qoi branch). For every
such non-legacy payload whose descriptor does not contain "compressed bgr"
and whose original encoding is color, the decoder converts the decoded
pixels from assumed RGB order to the original encoding order: RGB to BGR
for bgr8/bgr16, RGB to BGRA for bgra8/bgra16, RGB to RGBA for
rgba8/rgba16, and no conversion for rgb8/rgb16. -/
theorem claim_C10_amended_rgb_assumption (format : String) (payload : List Nat)
    (mat : MatModel) (p : Nat)
    (h1 : strFind format.toList ';' = some p)
    (h2 : p + 2 ≤ format.toList.length)
    (h3 : String.mk ((format.toList.drop (p + 2)).take 3) ≠ "qoi")
    (h4 : containsSub "compressed bgr".toList (format.toList.drop p) = false)
    (h6 : mat.channels = 3) :
    (String.mk (format.toList.take p) = "bgr8" ∨ String.mk (format.toList.take p) = "bgr16" →
      internalCallback format payload mat =
        .ok (finalize (String.mk (format.toList.take p))
          { mat with data := mapTriples (fun r g b => [b, g, r]) mat.data } false)) ∧
    (String.mk (format.toList.take p) = "bgra8" ∨ String.mk (format.toList.take p) = "bgra16" →
      internalCallback format payload mat =
        .ok (finalize (String.mk (format.toList.take p))
          { mat with channels := 4
                     data := mapTriples (fun r g b => [b, g, r, maxVal mat.depthBits]) mat.data }
          false)) ∧
    (String.mk (format.toList.take p) = "rgba8" ∨ String.mk (format.toList.take p) = "rgba16" →
      internalCallback format payload mat =
        .ok (finalize (String.mk (format.toList.take p))
          { mat with channels := 4
                     data := mapTriples (fun r g b => [r, g, b, maxVal mat.depthBits]) mat.data }
          false)) ∧
    (String.mk (format.toList.take p) = "rgb8" ∨ String.mk (format.toList.take p) = "rgb16" →
      internalCallback format payload mat =
        .ok (finalize (String.mk (format.toList.take p)) mat false)) := by
  refine ⟨?_, ?_, ?_, ?_⟩ <;> intro henc <;> rcases henc with henc | henc <;>
    · unfold internalCallback callbackCore
      simp only [h1]
      rw [if_pos h2]
      simp only [beq_eq_false_iff_ne.mpr h3, Bool.false_eq_true, if_false]
      rw [henc, h4]
      simp only [isColor, String.reduceBEq, Bool.or_false, Bool.false_or, Bool.or_true,
        Bool.true_or, Bool.or_self, Bool.false_eq_true, if_false, eq_self_iff_true, if_true,
        applyCvt, cvtColor, h6]

/-- C10 amended witness: the header "bgr8; png compressed" has the
separator, a non-qoi token and no "compressed bgr", so a 3-channel decode
is converted RGB to BGR and delivered as bgr8. -/
theorem claim_C10_amended_rgb_assumption_witness :
    containsSub "compressed bgr".toList ("bgr8; png compressed".toList.drop 4) = false ∧
    internalCallback "bgr8; png compressed" [] mat1x1x3 =
      .ok (finalize (String.mk ("bgr8; png compressed".toList.take 4))
        { mat1x1x3 with data := mapTriples (fun r g b => [b, g, r]) mat1x1x3.data } false) :=
  ⟨by decide,
    (claim_C10_amended_rgb_assumption "bgr8; png compressed" [] mat1x1x3 4
      (by decide) (by decide) (by decide) (by decide) (by decide)).1 (Or.inl (by decide))⟩

/-- The QOI encode succeeds exactly when the declared size fits the
buffer; helper for the channel-count claim. -/
theorem qoiEncode_ok (data : List Nat) (w h c : Nat)
    (hw : w ≠ 0) (hh : h ≠ 0) (hc : c = 3 ∨ c = 4)
    (hlen : w * h * c ≤ data.length) :
    qoiEncode data (w * h * c) ⟨w, h, c⟩ = .ok (w :: h :: c :: data.take (w * h * c)) := by
  unfold qoiEncode
  rw [if_neg ?hv, if_pos hlen]
  case hv =>
    rintro (h0 | h0 | ⟨h3, h4⟩ | h0)
    · exact hw h0
    · exact hh h0
    · rcases hc with rfl | rfl
      · exact h3 rfl
      · exact h4 rfl
    · exact h0 rfl

theorem qoiEncode_oob (data : List Nat) (w h c : Nat)
    (hw : w ≠ 0) (hh : h ≠ 0) (hc : c = 3 ∨ c = 4)
    (hlen : data.length < w * h * c) :
    qoiEncode data (w * h * c) ⟨w, h, c⟩ = .error .oobRead := by
  unfold qoiEncode
  rw [if_neg ?hv, if_neg (by omega)]
  case hv =>
    rintro (h0 | h0 | ⟨h3, h4⟩ | h0)
    · exact hw h0
    · exact hh h0
    · rcases hc with rfl | rfl
      · exact h3 rfl
      · exact h4 rfl
    · exact h0 rfl

/-- C7 amended: with QOI selected, an image whose channel count
step/width is neither 3 nor 4 is rejected with the channel-count error
and nothing is published; a 3-channel 8-bit color image (rgb8 or bgr8)
and a 4-channel non-color image (8UC4) encode and publish successfully;
but a 4-channel color image (rgba8 or bgra8) does not succeed: it is
converted to 3-channel bgr8 while the QOI descriptor still declares 4
channels, so the encode reads past the converted buffer. -/
theorem claim_C7_amended_qoi_channels (msg : RosImage) (o : ImencodeResult)
    (hw : msg.width ≠ 0) :
    (msg.step / msg.width ≠ 3 ∧ msg.step / msg.width ≠ 4 →
      compressedPublish msg "qoi" o =
        .ok { published := none, error := some .unsupportedChannelCount }) ∧
    ((msg.encoding = "rgb8" ∨ msg.encoding = "bgr8") → msg.step = 3 * msg.width →
      msg.data.length = msg.step * msg.height → msg.height ≠ 0 →
      ∃ m, compressedPublish msg "qoi" o = .ok { published := some m, error := none }) ∧
    (msg.encoding = "8UC4" → msg.step = 4 * msg.width →
      msg.data.length = msg.step * msg.height → msg.height ≠ 0 →
      ∃ m, compressedPublish msg "qoi" o = .ok { published := some m, error := none }) ∧
    ((msg.encoding = "rgba8" ∨ msg.encoding = "bgra8") → msg.step = 4 * msg.width →
      msg.data.length = msg.step * msg.height → msg.height ≠ 0 →
      compressedPublish msg "qoi" o = .error .oobRead) := by
  have hred : compressedPublish msg "qoi" o = qoiBranch msg := rfl
  refine ⟨?_, ?_, ?_, ?_⟩
  · rintro ⟨hc3, hc4⟩
    rw [hred]
    unfold qoiBranch
    simp only []
    rw [if_neg hw, if_neg (by rintro (hc | hc); exacts [hc3 hc, hc4 hc])]
  · rintro (henc | henc) hstep hlen hh
    · have hch : msg.step / msg.width = 3 := by
        rw [hstep, Nat.mul_comm]
        exact Nat.mul_div_cancel_left _ (Nat.pos_of_ne_zero hw)
      rw [hred]
      unfold qoiBranch
      simp only []
      rw [if_neg hw, hch]
      rw [if_pos (Or.inl rfl), henc]
      rw [show toCvShareBytes "rgb8" (qoiTargetFormat "rgb8") msg.data =
            .ok (mapTriples (fun r g b => [b, g, r]) msg.data) from rfl]
      simp only []
      have hdiv : msg.data.length / 3 = msg.width * msg.height := by
        rw [hlen, hstep, Nat.mul_assoc]
        exact Nat.mul_div_cancel_left _ (by norm_num)
      have hsize : msg.width * msg.height * 3 ≤
          (mapTriples (fun r g b => [b, g, r]) msg.data).length := by
        rw [mapTriples_length (fun r g b => [b, g, r]) 3 (fun _ _ _ => rfl) msg.data, hdiv]
        exact Nat.le_of_eq (Nat.mul_comm _ _)
      rw [qoiEncode_ok _ _ _ _ hw hh (Or.inl rfl) hsize]
      exact ⟨_, rfl⟩
    · have hch : msg.step / msg.width = 3 := by
        rw [hstep, Nat.mul_comm]
        exact Nat.mul_div_cancel_left _ (Nat.pos_of_ne_zero hw)
      rw [hred]
      unfold qoiBranch
      simp only []
      rw [if_neg hw, hch]
      rw [if_pos (Or.inl rfl), henc]
      rw [show toCvShareBytes "bgr8" (qoiTargetFormat "bgr8") msg.data = .ok msg.data from rfl]
      simp only []
      have hsize : msg.width * msg.height * 3 ≤ msg.data.length := by
        rw [hlen, hstep]
        exact Nat.le_of_eq (by ring)
      rw [qoiEncode_ok _ _ _ _ hw hh (Or.inl rfl) hsize]
      exact ⟨_, rfl⟩
  · rintro henc hstep hlen hh
    have hch : msg.step / msg.width = 4 := by
      rw [hstep, Nat.mul_comm]
      exact Nat.mul_div_cancel_left _ (Nat.pos_of_ne_zero hw)
    rw [hred]
    unfold qoiBranch
    simp only []
    rw [if_neg hw, hch]
    rw [if_pos (Or.inr rfl), henc]
    rw [show toCvShareBytes "8UC4" (qoiTargetFormat "8UC4") msg.data = .ok msg.data from rfl]
    simp only []
    have hsize : msg.width * msg.height * 4 ≤ msg.data.length := by
      rw [hlen, hstep]
      exact Nat.le_of_eq (by ring)
    rw [qoiEncode_ok _ _ _ _ hw hh (Or.inr rfl) hsize]
    exact ⟨_, rfl⟩
  · rintro (henc | henc) hstep hlen hh
    · have hch : msg.step / msg.width = 4 := by
        rw [hstep, Nat.mul_comm]
        exact Nat.mul_div_cancel_left _ (Nat.pos_of_ne_zero hw)
      rw [hred]
      unfold qoiBranch
      simp only []
      rw [if_neg hw, hch]
      rw [if_pos (Or.inr rfl), henc]
      rw [show toCvShareBytes "rgba8" (qoiTargetFormat "rgba8") msg.data =
            .ok (mapQuads (fun r g b _ => [b, g, r]) msg.data) from rfl]
      simp only []
      have hdiv : msg.data.length / 4 = msg.width * msg.height := by
        rw [hlen, hstep, Nat.mul_assoc]
        exact Nat.mul_div_cancel_left _ (by norm_num)
      have hpos : 0 < msg.width * msg.height :=
        Nat.mul_pos (Nat.pos_of_ne_zero hw) (Nat.pos_of_ne_zero hh)
      have hlt : (mapQuads (fun r g b _ => [b, g, r]) msg.data).length <
          msg.width * msg.height * 4 := by
        rw [mapQuads_length (fun r g b _ => [b, g, r]) 3 (fun _ _ _ _ => rfl) msg.data, hdiv]
        calc 3 * (msg.width * msg.height) < 4 * (msg.width * msg.height) :=
              mul_lt_mul_of_pos_right (by norm_num) hpos
          _ = msg.width * msg.height * 4 := Nat.mul_comm _ _
      rw [qoiEncode_oob _ _ _ _ hw hh (Or.inr rfl) hlt]
    · have hch : msg.step / msg.width = 4 := by
        rw [hstep, Nat.mul_comm]
        exact Nat.mul_div_cancel_left _ (Nat.pos_of_ne_zero hw)
      rw [hred]
      unfold qoiBranch
      simp only []
      rw [if_neg hw, hch]
      rw [if_pos (Or.inr rfl), henc]
      rw [show toCvShareBytes "bgra8" (qoiTargetFormat "bgra8") msg.data =
            .ok (mapQuads (fun b g r _ => [b, g, r]) msg.data) from rfl]
      simp only []
      have hdiv : msg.data.length / 4 = msg.width * msg.height := by
        rw [hlen, hstep, Nat.mul_assoc]
        exact Nat.mul_div_cancel_left _ (by norm_num)
      have hpos : 0 < msg.width * msg.height :=
        Nat.mul_pos (Nat.pos_of_ne_zero hw) (Nat.pos_of_ne_zero hh)
      have hlt : (mapQuads (fun b g r _ => [b, g, r]) msg.data).length <
          msg.width * msg.height * 4 := by
        rw [mapQuads_length (fun b g r _ => [b, g, r]) 3 (fun _ _ _ _ => rfl) msg.data, hdiv]
        calc 3 * (msg.width * msg.height) < 4 * (msg.width * msg.height) :=
              mul_lt_mul_of_pos_right (by norm_num) hpos
          _ = msg.width * msg.height * 4 := Nat.mul_comm _ _
      rw [qoiEncode_oob _ _ _ _ hw hh (Or.inr rfl) hlt]


/-- C7 amended witness: a 1-channel mono8 image is rejected with the
channel-count error, and a 3-channel rgb8 image publishes successfully. -/
theorem claim_C7_amended_qoi_channels_witness :
    (compressedPublish imgMono8 "qoi" .fail =
      .ok { published := none, error := some .unsupportedChannelCount }) ∧
    (∃ m, compressedPublish imgRgb8 "qoi" .fail =
      .ok { published := some m, error := none }) :=
  ⟨(claim_C7_amended_qoi_channels imgMono8 .fail (by decide)).1 (by decide),
   (claim_C7_amended_qoi_channels imgRgb8 .fail (by decide)).2.1 (Or.inl rfl)
     (by decide) (by decide) (by decide)⟩

end CompressedImageTransport
